import Mathlib

/-!
# Verification of the PDF_RAG repository

A shallow embedding, in Lean 4, of the PDF_RAG document-question-answering
service (three Python source files: `src/data_ingestion/ingestion.py`,
`src/data_retriever/retriever.py`, `api/main.py`), together with theorems
settling the behavioural claims made about it.

Modelling conventions:
* Python strings used by the text splitter are modelled as `List Char`
  (Python `len` = number of code points = list length); strings that only
  flow through the API layer are modelled as Lean `String`.
* File contents are byte lists (`List Nat`); only their length matters.
* The filesystem (uploaded files, persisted FAISS directories) and the
  process-wide `SESSIONS` dictionary are explicit state (`SysState`).
* External services (the Groq chat model behind each `prompt | llm |
  StrOutputParser` stage, the FAISS similarity search, the PyPDF loader and
  the embedding/index construction) are oracles passed in as function-valued
  records; Python exceptions are `Except PyExc`.
* `ChatIngestor._split` delegates to langchain's
  `RecursiveCharacterTextSplitter(chunk_size=1000, chunk_overlap=200)`;
  that library algorithm (its default configuration: separators
  `["\n\n", "\n", " ", ""]`, `keep_separator=True`,
  `is_separator_regex=False`, `length_function=len`,
  `strip_whitespace=True`) is embedded faithfully below, since it is the
  code that decides the chunking claims.
-/

/-! ## Generic helpers: association lists keyed by `String` -/

/-- Lookup in an association list (Python `dict` access / `in`). -/
def lookupAssoc {α : Type} : List (String × α) → String → Option α
  | [], _ => none
  | (k, v) :: rest, key => if k = key then some v else lookupAssoc rest key

/-- Python `dict.get(key, dflt)`. -/
def lookupD {α : Type} (l : List (String × α)) (key : String) (dflt : α) : α :=
  (lookupAssoc l key).getD dflt

/-- Python `d[key] = v`: replace the binding if present, else add it. -/
def updateAssoc {α : Type} : List (String × α) → String → α → List (String × α)
  | [], key, v => [(key, v)]
  | (k, w) :: rest, key, v =>
    if k = key then (key, v) :: rest else (k, w) :: updateAssoc rest key v

/-! ## Python path / string helpers used by `ingestion.py` -/

/-- Characters after the last `/` (pathlib `Path(name).name` for the
slash-free file names produced by uploads). -/
def afterLastSlash (l : List Char) : List Char :=
  l.foldl (fun acc c => if c = '/' then [] else acc ++ [c]) []

/-- Index of the last `.` in a character list (Python `str.rfind('.')`),
`none` when absent. -/
def rfindDot : List Char → Option Nat
  | [] => none
  | c :: rest =>
    match rfindDot rest with
    | some i => some (i + 1)
    | none => if c = '.' then some 0 else none

/-- pathlib `PurePath.suffix` on a path component: the part from the last
dot, provided that dot is neither the first nor the last character. -/
def suffixChars (name : List Char) : List Char :=
  match rfindDot name with
  | none => []
  | some i => if 0 < i ∧ i < name.length - 1 then name.drop i else []

/-- pathlib `Path(s).name`. -/
def pyName (s : String) : String := String.mk (afterLastSlash s.data)

/-- pathlib `Path(s).suffix`. -/
def pySuffix (s : String) : String := String.mk (suffixChars (afterLastSlash s.data))

/-- Python `str.lower()` (ASCII case folding suffices for file extensions). -/
def strLower (s : String) : String := String.mk (s.data.map Char.toLower)

/-! ## The text splitter

`ChatIngestor._split` runs
`RecursiveCharacterTextSplitter(chunk_size=1000, chunk_overlap=200)
  .split_documents(docs)`.
The following definitions embed that langchain algorithm, specialised to
its defaults (`keep_separator=True`, literal separators, `len`,
`strip_whitespace=True`). -/

/-- Python `str.strip()`: drop whitespace from both ends. -/
def pyStrip (l : List Char) : List Char :=
  ((l.dropWhile Char.isWhitespace).reverse.dropWhile Char.isWhitespace).reverse

/-- `re.search(re.escape(sep), text)` for a literal separator: substring
test. -/
def containsSub (sep : List Char) : List Char → Bool
  | [] => sep.isEmpty
  | c :: rest => sep.isPrefixOf (c :: rest) || containsSub sep rest

/-- Worker for `re.split` with a nonempty literal pattern: returns the
pieces between the (leftmost, non-overlapping) occurrences of `sep`.
`fuel` bounds the recursion; it is called with `fuel = text length`, which
is enough because every step consumes at least one character. -/
def splitSepGo (sep : List Char) : Nat → List Char → List Char → List (List Char)
  | _, [], acc => [acc.reverse]
  | 0, rest, acc => [acc.reverse ++ rest]
  | fuel + 1, c :: rest, acc =>
    if sep.isPrefixOf (c :: rest) then
      acc.reverse :: splitSepGo sep fuel (rest.drop (sep.length - 1)) []
    else
      splitSepGo sep fuel rest (c :: acc)

/-- Pieces of `text` between occurrences of the nonempty literal `sep`. -/
def pySplitPieces (sep text : List Char) : List (List Char) :=
  splitSepGo sep text.length text []

/-- langchain `_split_text_with_regex(text, re.escape(sep), keep_separator=True)`:
split on the separator, then glue each separator onto the piece that
follows it, and drop empty strings.  For `sep = ""` Python takes
`list(text)` instead. -/
def splitTextWithSep (sep text : List Char) : List (List Char) :=
  let splits :=
    if sep.isEmpty then text.map (fun c => [c])
    else
      match pySplitPieces sep text with
      | [] => []
      | p :: ps => p :: ps.map (fun q => sep ++ q)
  splits.filter (fun s => ¬ s.isEmpty)

/-- Python `sep.join(docs)`. -/
def interJoin (sep : List Char) : List (List Char) → List Char
  | [] => []
  | [d] => d
  | d :: ds => d ++ sep ++ interJoin sep ds

/-- langchain `TextSplitter._join_docs`: join, strip whitespace, and return
`none` for the empty result. -/
def joinDocs (sep : List Char) (docs : List (List Char)) : Option (List Char) :=
  let text := pyStrip (interJoin sep docs)
  if text.isEmpty then none else some text

/-- The `while` loop inside `TextSplitter._merge_splits` that pops splits
off the front of the running window.  `C` is `chunk_size`, `O` is
`chunk_overlap`, `dLen` the length of the incoming split.  The
`current = []` arm of the recursion is never reached in executions where
`total` is the joined length of `current` (then `total = 0` falsifies the
loop condition). -/
def popLoop (C O sepLen dLen : Nat) : List (List Char) → Nat → List (List Char) × Nat
  | current, total =>
    if total > O ∨
        (total + dLen + (if current.isEmpty then 0 else sepLen) > C ∧ total > 0) then
      match current with
      | [] => ([], total)
      | x :: rest =>
        popLoop C O sepLen dLen rest
          (total - (x.length + if rest.isEmpty then 0 else sepLen))
    else (current, total)

/-- Accumulator of `TextSplitter._merge_splits`: emitted docs, the current
window, and the running total length. -/
structure MergeAcc where
  docs : List (List Char)
  current : List (List Char)
  total : Nat

/-- One iteration of the `for d in splits` loop of
`TextSplitter._merge_splits`. -/
def mergeStep (C O : Nat) (sep : List Char) (acc : MergeAcc) (d : List Char) : MergeAcc :=
  let sepLen := sep.length
  let dLen := d.length
  let acc1 :=
    if acc.total + dLen + (if acc.current.isEmpty then 0 else sepLen) > C then
      let docs1 :=
        match joinDocs sep acc.current with
        | none => acc.docs
        | some doc => acc.docs ++ [doc]
      let pair := popLoop C O sepLen dLen acc.current acc.total
      { docs := docs1, current := pair.1, total := pair.2 }
    else acc
  let current1 := acc1.current ++ [d]
  { docs := acc1.docs, current := current1,
    total := acc1.total + dLen + (if current1.length > 1 then sepLen else 0) }

/-- langchain `TextSplitter._merge_splits`. -/
def mergeSplits (C O : Nat) (sep : List Char) (splits : List (List Char)) : List (List Char) :=
  let acc := splits.foldl (mergeStep C O sep) ⟨[], [], 0⟩
  match joinDocs sep acc.current with
  | none => acc.docs
  | some doc => acc.docs ++ [doc]

/-- The separator-selection loop at the top of
`RecursiveCharacterTextSplitter._split_text`: scan the separator list, stop
at the first empty separator or the first one occurring in `text`; `last`
is the Python initial value `separators[-1]`. Returns the chosen separator
together with `new_separators`. -/
def chooseSepGo (text last : List Char) : List (List Char) → List Char × List (List Char)
  | [] => (last, [])
  | s :: rest =>
    if s.isEmpty then ([], [])
    else if containsSub s text then (s, rest)
    else chooseSepGo text last rest

/-- Separator selection of `RecursiveCharacterTextSplitter._split_text`. -/
def chooseSep (text : List Char) (seps : List (List Char)) : List Char × List (List Char) :=
  chooseSepGo text (seps.getLastD []) seps

/-- One iteration of the `for s in splits` loop of
`RecursiveCharacterTextSplitter._split_text`: the state is
`(final_chunks, _good_splits)`; a split shorter than `chunk_size`
accumulates, a long one flushes the good splits through
`_merge_splits` and is handled by `handleBad` (either kept verbatim when
`new_separators` is empty, or split recursively). The merge separator is
`""` because `keep_separator=True`. -/
def processStep (C O : Nat) (handleBad : List Char → List (List Char))
    (st : List (List Char) × List (List Char)) (s : List Char) :
    List (List Char) × List (List Char) :=
  if s.length < C then (st.1, st.2 ++ [s])
  else
    (st.1 ++ (if st.2.isEmpty then [] else mergeSplits C O [] st.2) ++ handleBad s, [])

/-- The split-processing loop plus final flush of
`RecursiveCharacterTextSplitter._split_text`. -/
def processSplits (C O : Nat) (handleBad : List Char → List (List Char))
    (splits : List (List Char)) : List (List Char) :=
  let st := splits.foldl (processStep C O handleBad) ([], [])
  st.1 ++ (if st.2.isEmpty then [] else mergeSplits C O [] st.2)

/-- `RecursiveCharacterTextSplitter._split_text(text, separators)`.
Recursion is by fuel on the length of the separator list: every recursive
call of the Python code uses `new_separators`, a strict suffix of
`separators`, so `fuel = separators.length` never runs out (the `fuel = 0`
arm is unreachable from `splitText`). -/
def splitTextRec (C O : Nat) : Nat → List (List Char) → List Char → List (List Char)
  | 0, _, text => [text]
  | fuel + 1, seps, text =>
    let sn := chooseSep text seps
    let splits := splitTextWithSep sn.1 text
    let handleBad :=
      if sn.2.isEmpty then fun s : List Char => [s]
      else fun s : List Char => splitTextRec C O fuel sn.2 s
    processSplits C O handleBad splits

/-- The default separator list of `RecursiveCharacterTextSplitter`. -/
def defaultSeparators : List (List Char) := [['\n', '\n'], ['\n'], [' '], []]

/-- `RecursiveCharacterTextSplitter(chunk_size=C, chunk_overlap=O).split_text`. -/
def splitText (C O : Nat) (text : List Char) : List (List Char) :=
  splitTextRec C O defaultSeparators.length defaultSeparators text

/-- A langchain `Document` as produced by `PyPDFLoader` (page text plus
source metadata, here collapsed to one opaque string). -/
structure PDoc where
  page_content : List Char
  metadata : String := ""
deriving DecidableEq

/-- `ChatIngestor._split` (ingestion.py lines 27-31):
`RecursiveCharacterTextSplitter(chunk_size=1000, chunk_overlap=200)
  .split_documents(docs)`, i.e. each document's text is split and every
chunk carries the (deep-copied) metadata of its document. -/
def ingestorSplit : List PDoc → List PDoc
  | [] => []
  | d :: ds =>
    (splitText 1000 200 d.page_content).map
      (fun c => { d with page_content := c }) ++ ingestorSplit ds

/-- Spec notion used by the chunking claim: `c1` and `c2` share an overlap
region of exactly `n` units when the last `n` units of `c1` equal the
first `n` units of `c2`. -/
def hasOverlapRegion (n : Nat) (c1 c2 : List Char) : Prop :=
  n ≤ c1.length ∧ n ≤ c2.length ∧ c1.drop (c1.length - n) = c2.take n

instance (n : Nat) (c1 c2 : List Char) : Decidable (hasOverlapRegion n c1 c2) := by
  unfold hasOverlapRegion; infer_instance

/-! ## Python exceptions -/

/-- The Python exceptions raised by the embedded code. `str(e)` is
`excMsg`. -/
inductive PyExc
  | valueError (msg : String)
  | fileNotFoundError (msg : String)
  | runtimeError (msg : String)
deriving DecidableEq

/-- Python `str(e)` for the exceptions above. -/
def excMsg : PyExc → String
  | .valueError m => m
  | .fileNotFoundError m => m
  | .runtimeError m => m

/-! ## Ingestion pipeline (`src/data_ingestion/ingestion.py`) -/

/-- The duck-typed uploaded file (`FastAPIFileAdapter`): a name and the
bytes `read()` returns. -/
structure UploadedFile where
  name : String
  data : List Nat
deriving DecidableEq

/-- The mutable fields of a `ChatIngestor` instance: `self.file_path`
(initially `Path()`, i.e. `"."`) and `self.session_id` (time- and
random-derived; modelled as a parameter of `chat_build_index`). -/
structure ChatIngestor where
  file_path : String
  session_id : String
deriving DecidableEq

/-- External effects of `built_retriver` whose outcome is not determined
by this repository's code: `PyPDFLoader(...).load()` on the saved bytes,
and `HuggingFaceEmbeddings` + `FAISS.from_documents` on the chunks.
Either may raise. -/
structure IngestEnv where
  loadPdf : List Nat → Except PyExc (List PDoc)
  buildIndex : List PDoc → Except PyExc Unit

/-- `ChatIngestor.save_uploaded_files` (ingestion.py lines 34-58).
State threaded through: the saved-file map `files` (path → bytes).
`target_dir.mkdir` has no observable effect in the model. Returns the
updated ingestor (with `self.file_path` set), the updated file map and the
returned path. -/
def save_uploaded_files (ci : ChatIngestor) (files : List (String × List Nat))
    (uf : UploadedFile) :
    Except PyExc (ChatIngestor × List (String × List Nat) × String) :=
  let name := uf.name
  let ext := strLower (pySuffix name)
  if ext ≠ ".pdf" then .error (.valueError "Only PDF files are supported.")
  else
    let out := "data/pdf/" ++ pyName name
    .ok ({ ci with file_path := out }, updateAssoc files out uf.data, out)

/-- `ChatIngestor.built_retriver` (ingestion.py lines 61-92). Returns
`none` when the saved file does not exist or is empty (the Python code
returns `None` after logging); otherwise loads the PDF, splits it with
`ingestorSplit`, builds the FAISS store, persists it under
`data/vectorstores/<session_id>` and returns the retriever (modelled by
its chunk list). The persisted-store set is threaded as `stores`. -/
def built_retriver (env : IngestEnv) (ci : ChatIngestor)
    (files : List (String × List Nat)) (stores : List String) :
    Except PyExc (Option (List PDoc) × List String) :=
  match lookupAssoc files ci.file_path with
  | none => .ok (none, stores)
  | some data =>
    if data.length = 0 then .ok (none, stores)
    else
      match env.loadPdf data with
      | .error e => .error e
      | .ok documents =>
        let chunks := ingestorSplit documents
        match env.buildIndex chunks with
        | .error e => .error e
        | .ok _ =>
          let path := "data/vectorstores/" ++ ci.session_id
          let stores1 := if stores.contains path then stores else stores ++ [path]
          .ok (some chunks, stores1)

/-! ## Conversational retrieval chain (`src/data_retriever/retriever.py`) -/

/-- A langchain chat message (`HumanMessage` / `AIMessage`). -/
inductive LCMsg
  | human (content : String)
  | ai (content : String)
deriving DecidableEq

/-- A document coming back from the retriever (only `page_content` is
read by `_format_docs`). -/
structure RDoc where
  page_content : String
deriving DecidableEq

/-- The external services composed into the LCEL chain: the
`contextualize_question` prompt piped through the Groq model and
`StrOutputParser` (arguments: `input`, `chat_history`), the FAISS
similarity retriever (`k = 4`), and the `context_qa` prompt piped through
the model and parser (arguments: `context`, `input`, `chat_history`).
Each call may raise. -/
structure RAGEnv where
  contextualizeLLM : String → List LCMsg → Except PyExc String
  retrieverSearch : String → Except PyExc (List RDoc)
  qaLLM : String → String → List LCMsg → Except PyExc String

/-- The payload dict `{"input": ..., "chat_history": ...}` fed to the
chain. -/
structure RAGPayload where
  input : String
  chat_history : List LCMsg

/-- `ConversationalRAG._format_docs` (retriever.py lines 107-109):
join the retrieved documents' `page_content` with blank lines. -/
def formatDocs (docs : List RDoc) : String :=
  String.intercalate "\n\n" (docs.map (fun d => d.page_content))

/-- Stage 1 of `_build_lcel_chain` (retriever.py lines 117-122):
`{"input": itemgetter("input"), "chat_history": itemgetter("chat_history")}
 | contextualize_prompt | llm | StrOutputParser()`. -/
def questionRewriter (env : RAGEnv) (p : RAGPayload) : Except PyExc String :=
  env.contextualizeLLM p.input p.chat_history

/-- Stage 2 of `_build_lcel_chain` (retriever.py line 125):
`question_rewriter | retriever | _format_docs`. -/
def retrieveDocs (env : RAGEnv) (p : RAGPayload) : Except PyExc String :=
  match questionRewriter env p with
  | .error e => .error e
  | .ok rewritten =>
    match env.retrieverSearch rewritten with
    | .error e => .error e
    | .ok docs => .ok (formatDocs docs)

/-- Stage 3 of `_build_lcel_chain` (retriever.py lines 128-137): the full
chain `{"context": retrieve_docs, "input": itemgetter("input"),
"chat_history": itemgetter("chat_history")} | qa_prompt | llm |
StrOutputParser()`. -/
def chainRun (env : RAGEnv) (p : RAGPayload) : Except PyExc String :=
  match retrieveDocs env p with
  | .error e => .error e
  | .ok context => env.qaLLM context p.input p.chat_history

/-- The mutable fields of a `ConversationalRAG` instance. The retriever
and the built chain are both determined by the loaded FAISS store, so both
are modelled as the `RAGEnv` they expose. -/
structure RAGState where
  session_id : String
  retriever : Option RAGEnv := none
  chain : Option RAGEnv := none

/-- `ConversationalRAG._build_lcel_chain` (retriever.py lines 111-142):
fails when no retriever is set, otherwise installs the chain. -/
def buildLcelChain (rag : RAGState) : Except PyExc RAGState :=
  match rag.retriever with
  | none => .error (.valueError "Retriever must be set before building LCEL chain.")
  | some env => .ok { rag with chain := some env }

/-- `ConversationalRAG.load_retriever_from_faiss` (retriever.py lines
53-78): raise `FileNotFoundError` when the index path does not exist on
disk, otherwise load the FAISS store (`loadEnv` gives the services the
loaded store exposes), set the retriever and build the chain. -/
def load_retriever_from_faiss (stores : List String) (loadEnv : String → RAGEnv)
    (rag : RAGState) (index_path : String) : Except PyExc RAGState :=
  if ¬ stores.contains index_path then
    .error (.fileNotFoundError ("FAISS index not found at " ++ index_path))
  else
    buildLcelChain { rag with retriever := some (loadEnv index_path) }

/-- Python `chat_history or []` in `ConversationalRAG.invoke`. -/
def orEmptyList (h : Option (List LCMsg)) : List LCMsg :=
  match h with
  | none => []
  | some [] => []
  | some l => l

/-- `ConversationalRAG.invoke` (retriever.py lines 81-104): fail when the
chain is not built; otherwise run the chain on
`{"input": user_input, "chat_history": chat_history or []}`; a falsy
(empty) answer becomes the literal `"no answer generated."`, any other
answer is returned unchanged (`str` of a string is itself); exceptions
from the chain are re-raised. -/
def invoke (rag : RAGState) (user_input : String) (chat_history : Option (List LCMsg)) :
    Except PyExc String :=
  match rag.chain with
  | none => .error (.valueError "LCEL chain is not built. Call _build_lcel_chain() first.")
  | some env =>
    match chainRun env ⟨user_input, orEmptyList chat_history⟩ with
    | .error e => .error e
    | .ok answer => if answer = "" then .ok "no answer generated." else .ok answer

/-! ## HTTP interface (`api/main.py`) -/

/-- One entry of a `SESSIONS[sid]` list: `{"role": ..., "content": ...}`. -/
structure Turn where
  role : String
  content : String
deriving DecidableEq

/-- The process state the two endpoints read and write: the in-memory
`SESSIONS` dict, the saved upload files under `data/pdf`, and the
persisted FAISS directories under `data/vectorstores`. -/
structure SysState where
  sessions : List (String × List Turn)
  files : List (String × List Nat)
  stores : List String

/-- Outcome of the upload endpoint: the JSON success body, or the
`HTTPException` status and detail. -/
inductive UploadResult
  | ok (session_id : String) (file_path : String)
  | err (status : Nat) (detail : String)
deriving DecidableEq

/-- Outcome of the query endpoint. -/
inductive ApiResult
  | ok (answer : String)
  | err (status : Nat) (detail : String)
deriving DecidableEq

/-- `chat_build_index` (`POST /chat/upload_files`, api/main.py lines
84-112). The fresh session id (made in `ChatIngestor.__init__` from the
clock and `uuid4`) is a parameter. Every exception inside the handler —
including the `HTTPException(500, "Retriever could not be built.")` raised
when `built_retriver` returns `None`, whose `str` is
`"500: Retriever could not be built."` — is caught and re-raised as
status 500 with detail `"Indexing failed: {e}"`. On success the session
is registered with an empty history. -/
def chat_build_index (env : IngestEnv) (sid : String) (st : SysState)
    (file : UploadedFile) : SysState × UploadResult :=
  let ci : ChatIngestor := { file_path := ".", session_id := sid }
  match save_uploaded_files ci st.files file with
  | .error e => (st, .err 500 ("Indexing failed: " ++ excMsg e))
  | .ok (ci1, files1, saved_path) =>
    let st1 : SysState := { st with files := files1 }
    match built_retriver env ci1 st1.files st1.stores with
    | .error e => (st1, .err 500 ("Indexing failed: " ++ excMsg e))
    | .ok (none, stores1) =>
      ({ st1 with stores := stores1 },
       .err 500 "Indexing failed: 500: Retriever could not be built.")
    | .ok (some _, stores1) =>
      ({ st1 with stores := stores1, sessions := updateAssoc st1.sessions sid [] },
       .ok sid saved_path)

/-- The history-conversion loop of `chat_query` (api/main.py lines
140-148): `"user"` turns become `HumanMessage`, `"assistant"` turns
become `AIMessage`, anything else is skipped. -/
def historyToLC (ts : List Turn) : List LCMsg :=
  ts.filterMap (fun t =>
    if t.role = "user" then some (.human t.content)
    else if t.role = "assistant" then some (.ai t.content)
    else none)

/-- `chat_query` (`POST /chat/query`, api/main.py lines 118-159).
Before the `try` block: an empty or unknown `session_id` is rejected with
status 400, then an empty query with status 400. Inside the `try` block a
`ConversationalRAG` is built, the FAISS index
`data/vectorstores/<session_id>` is loaded, the stored history is
converted and the chain invoked; any exception is turned into status 500
with detail `"Chat failed: {e}"`. On success the user query and the
answer are appended, in that order, to the session's history. -/
def chat_query (loadEnv : String → RAGEnv) (st : SysState)
    (session_id query : String) : SysState × ApiResult :=
  if session_id = "" ∨ lookupAssoc st.sessions session_id = none then
    (st, .err 400 "Invalid or expired session_id. Re-upload documents.")
  else if query = "" then
    (st, .err 400 "Query cannot be empty")
  else
    let rag : RAGState := { session_id := session_id }
    let index_path := "data/vectorstores/" ++ session_id
    match load_retriever_from_faiss st.stores loadEnv rag index_path with
    | .error e => (st, .err 500 ("Chat failed: " ++ excMsg e))
    | .ok rag1 =>
      let simple := lookupD st.sessions session_id []
      let lc_history := historyToLC simple
      match invoke rag1 query (some lc_history) with
      | .error e => (st, .err 500 ("Chat failed: " ++ excMsg e))
      | .ok answer =>
        let simple1 := simple ++ [⟨"user", query⟩, ⟨"assistant", answer⟩]
        ({ st with sessions := updateAssoc st.sessions session_id simple1 },
         .ok answer)

/-! ## Concrete fixtures used by witnesses and counterexamples -/

/-- Sum of the lengths of a list of character lists (used by the merge
invariant). -/
def sumLens : List (List Char) → Nat
  | [] => 0
  | d :: ds => d.length + sumLens ds

/-- Invariant of the `_merge_splits` loop (for merge separator `""`):
the running total is the summed length of the window, it never exceeds
`chunk_size`, and every emitted doc is within `chunk_size`. -/
def mergeInv (C : Nat) (acc : MergeAcc) : Prop :=
  acc.total = sumLens acc.current ∧ acc.total ≤ C ∧ ∀ c ∈ acc.docs, c.length ≤ C

/-- A chain environment whose retriever finds nothing and whose answer
model returns a fixed string. -/
def envEmptyRet : RAGEnv where
  contextualizeLLM := fun _ _ => .ok "standalone question"
  retrieverSearch := fun _ => .ok []
  qaLLM := fun _ _ _ => .ok "answer from llm"

/-- A chain environment whose retriever finds two chunks. -/
def envOk : RAGEnv where
  contextualizeLLM := fun _ _ => .ok "standalone question"
  retrieverSearch := fun _ => .ok [⟨"chunk one"⟩, ⟨"chunk two"⟩]
  qaLLM := fun _ _ _ => .ok "final answer"

/-- A chain environment whose answer model returns the empty string. -/
def envEmptyAns : RAGEnv where
  contextualizeLLM := fun _ _ => .ok "standalone question"
  retrieverSearch := fun _ => .ok []
  qaLLM := fun _ _ _ => .ok ""

/-- FAISS-load oracle returning `envOk` for every loaded index. -/
def loadEnvOk : String → RAGEnv := fun _ => envOk

/-- Ingestion oracle: the PDF parses into one page, index building
succeeds. -/
def ienvOk : IngestEnv where
  loadPdf := fun _ => .ok [⟨"hello world".data, "page0"⟩]
  buildIndex := fun _ => .ok ()

/-- Ingestion oracle whose loader and index builder always raise (used to
show those stages are not reached). -/
def ienvBoom : IngestEnv where
  loadPdf := fun _ => .error (.runtimeError "loader reached")
  buildIndex := fun _ => .error (.runtimeError "builder reached")

/-- Empty process state. -/
def stEmpty : SysState := { sessions := [], files := [], stores := [] }

/-- State with one registered session `"s1"` whose index is persisted. -/
def stReg : SysState :=
  { sessions := [("s1", [])], files := [], stores := ["data/vectorstores/s1"] }

/-- State with one registered session `"s2"` whose index directory is
missing (stale session). -/
def stStale : SysState :=
  { sessions := [("s2", [])], files := [], stores := [] }

/-- State where the index directory for `"session_fake"` exists on disk
but the session is not registered. -/
def stFakeIdx : SysState :=
  { sessions := [], files := [], stores := ["data/vectorstores/session_fake"] }

/-- The C8 counterexample document: 600 `a`s, a space, 600 `b`s. -/
def docAB : PDoc :=
  { page_content := List.replicate 600 'a' ++ ' ' :: List.replicate 600 'b' }

/-! ## Helper lemmas -/

theorem dropWhile_length_le (p : Char → Bool) (l : List Char) :
    (l.dropWhile p).length ≤ l.length := by
  induction l with
  | nil => simp [List.dropWhile]
  | cons c rest ih =>
    simp only [List.dropWhile]
    split
    · exact Nat.le_trans ih (Nat.le_succ _)
    · exact Nat.le_refl _

theorem pyStrip_length_le (l : List Char) : (pyStrip l).length ≤ l.length := by
  unfold pyStrip
  calc (((l.dropWhile Char.isWhitespace).reverse.dropWhile Char.isWhitespace).reverse).length
      = ((l.dropWhile Char.isWhitespace).reverse.dropWhile Char.isWhitespace).length := by
        rw [List.length_reverse]
    _ ≤ (l.dropWhile Char.isWhitespace).reverse.length := dropWhile_length_le _ _
    _ = (l.dropWhile Char.isWhitespace).length := by rw [List.length_reverse]
    _ ≤ l.length := dropWhile_length_le _ _

theorem sumLens_append (l : List (List Char)) (d : List Char) :
    sumLens (l ++ [d]) = sumLens l + d.length := by
  induction l with
  | nil => simp [sumLens]
  | cons x xs ih => simp [sumLens, ih]; omega

theorem interJoin_nil_length (ds : List (List Char)) :
    (interJoin [] ds).length = sumLens ds := by
  induction ds with
  | nil => simp [interJoin, sumLens]
  | cons d rest ih =>
    cases rest with
    | nil => simp [interJoin, sumLens]
    | cons e es =>
      simp only [interJoin, sumLens] at *
      simp [List.length_append, ih]

theorem joinDocs_nil_length (ds : List (List Char)) (doc : List Char)
    (h : joinDocs [] ds = some doc) : doc.length ≤ sumLens ds := by
  simp only [joinDocs] at h
  split at h
  · exact absurd h (by simp)
  · cases h
    calc (pyStrip (interJoin [] ds)).length
        ≤ (interJoin [] ds).length := pyStrip_length_le _
      _ = sumLens ds := interJoin_nil_length ds

theorem popLoop_spec (C O dLen : Nat) :
    ∀ (current : List (List Char)) (total : Nat), total = sumLens current →
      (popLoop C O 0 dLen current total).2 = sumLens (popLoop C O 0 dLen current total).1 ∧
      ((popLoop C O 0 dLen current total).2 + dLen ≤ C ∨
        (popLoop C O 0 dLen current total).2 = 0) := by
  intro current
  induction current with
  | nil =>
    intro total ht
    simp [sumLens] at ht
    subst ht
    simp [popLoop, sumLens]
  | cons x rest ih =>
    intro total ht
    simp only [popLoop]
    by_cases hc : total > O ∨
        (total + dLen + (if (x :: rest).isEmpty then 0 else 0) > C ∧ total > 0)
    · rw [if_pos hc]
      have ht' : total - (x.length + if rest.isEmpty then 0 else 0) = sumLens rest := by
        simp only [ite_self]
        simp [sumLens] at ht
        omega
      exact ih _ ht'
    · rw [if_neg hc]
      push_neg at hc
      refine ⟨ht, ?_⟩
      simp only [ite_self] at hc
      omega

theorem mergeStep_inv (C O : Nat) (d : List Char) (acc : MergeAcc)
    (hd : d.length < C) (h : mergeInv C acc) : mergeInv C (mergeStep C O [] acc d) := by
  obtain ⟨h1, h2, h3⟩ := h
  simp only [mergeStep, List.length_nil, ite_self]
  by_cases hc : acc.total + d.length + 0 > C
  · rw [if_pos hc]
    have hpop := popLoop_spec C O d.length acc.current acc.total h1
    refine ⟨?_, ?_, ?_⟩
    · simp only [ite_self]
      rw [sumLens_append]
      omega
    · simp only [ite_self]
      rcases hpop.2 with hle | hz
      · omega
      · omega
    · intro c hcmem
      split at hcmem
      · exact h3 c hcmem
      · rcases List.mem_append.mp hcmem with hm | hm
        · exact h3 c hm
        · rename_i doc hjoin
          have := joinDocs_nil_length acc.current doc hjoin
          have hcd : c = doc := by simpa using hm
          subst hcd
          omega
  · rw [if_neg hc]
    refine ⟨?_, ?_, h3⟩
    · simp only [ite_self]
      rw [sumLens_append]
      omega
    · simp only [ite_self]
      omega

theorem mergeFold_inv (C O : Nat) :
    ∀ (splits : List (List Char)) (acc : MergeAcc),
      (∀ d ∈ splits, d.length < C) → mergeInv C acc →
      mergeInv C (splits.foldl (mergeStep C O []) acc) := by
  intro splits
  induction splits with
  | nil => intro acc _ h; simpa using h
  | cons d rest ih =>
    intro acc hs h
    simp only [List.foldl_cons]
    exact ih _ (fun x hx => hs x (List.mem_cons_of_mem d hx))
      (mergeStep_inv C O d acc (hs d (List.mem_cons_self d rest)) h)

theorem mergeSplits_bound (C O : Nat) (splits : List (List Char))
    (hs : ∀ d ∈ splits, d.length < C) :
    ∀ c ∈ mergeSplits C O [] splits, c.length ≤ C := by
  intro c hc
  have hinv : mergeInv C (splits.foldl (mergeStep C O []) ⟨[], [], 0⟩) :=
    mergeFold_inv C O splits ⟨[], [], 0⟩ hs ⟨rfl, Nat.zero_le C, by simp⟩
  obtain ⟨h1, h2, h3⟩ := hinv
  simp only [mergeSplits] at hc
  split at hc
  · exact h3 c hc
  · rcases List.mem_append.mp hc with hm | hm
    · exact h3 c hm
    · rename_i doc hjoin
      have := joinDocs_nil_length _ doc hjoin
      have hcd : c = doc := by simpa using hm
      subst hcd
      omega

theorem processStep_inv (C O : Nat) (handleBad : List Char → List (List Char))
    (s : List Char) (st : List (List Char) × List (List Char))
    (hs : s.length < C ∨ ∀ c ∈ handleBad s, c.length ≤ C)
    (h1 : ∀ c ∈ st.1, c.length ≤ C) (h2 : ∀ g ∈ st.2, g.length < C) :
    (∀ c ∈ (processStep C O handleBad st s).1, c.length ≤ C) ∧
    (∀ g ∈ (processStep C O handleBad st s).2, g.length < C) := by
  simp only [processStep]
  by_cases hlen : s.length < C
  · rw [if_pos hlen]
    refine ⟨h1, ?_⟩
    intro g hg
    rcases List.mem_append.mp hg with hm | hm
    · exact h2 g hm
    · have : g = s := by simpa using hm
      subst this
      exact hlen
  · rw [if_neg hlen]
    refine ⟨?_, by simp⟩
    intro c hcm
    rcases List.mem_append.mp hcm with hm | hm
    · rcases List.mem_append.mp hm with hm' | hm'
      · exact h1 c hm'
      · split at hm'
        · simp at hm'
        · exact mergeSplits_bound C O st.2 h2 c hm'
    · exact (hs.resolve_left hlen) c hm

theorem processFold_inv (C O : Nat) (handleBad : List Char → List (List Char)) :
    ∀ (splits : List (List Char)) (st : List (List Char) × List (List Char)),
      (∀ s ∈ splits, s.length < C ∨ ∀ c ∈ handleBad s, c.length ≤ C) →
      (∀ c ∈ st.1, c.length ≤ C) → (∀ g ∈ st.2, g.length < C) →
      (∀ c ∈ (splits.foldl (processStep C O handleBad) st).1, c.length ≤ C) ∧
      (∀ g ∈ (splits.foldl (processStep C O handleBad) st).2, g.length < C) := by
  intro splits
  induction splits with
  | nil => intro st _ h1 h2; exact ⟨h1, h2⟩
  | cons s rest ih =>
    intro st hs h1 h2
    simp only [List.foldl_cons]
    have hstep := processStep_inv C O handleBad s st
      (hs s (List.mem_cons_self s rest)) h1 h2
    exact ih _ (fun x hx => hs x (List.mem_cons_of_mem s hx)) hstep.1 hstep.2

theorem processSplits_bound (C O : Nat) (handleBad : List Char → List (List Char))
    (splits : List (List Char))
    (hs : ∀ s ∈ splits, s.length < C ∨ ∀ c ∈ handleBad s, c.length ≤ C) :
    ∀ c ∈ processSplits C O handleBad splits, c.length ≤ C := by
  intro c hc
  have hinv := processFold_inv C O handleBad splits ([], [])
    hs (by simp) (by simp)
  simp only [processSplits] at hc
  rcases List.mem_append.mp hc with hm | hm
  · exact hinv.1 c hm
  · split at hm
    · simp at hm
    · exact mergeSplits_bound C O _ hinv.2 c hm

theorem chooseSepGo_spec (text last : List Char) :
    ∀ seps : List (List Char), [] ∈ seps →
      chooseSepGo text last seps = ([], []) ∨
      ([] ∈ (chooseSepGo text last seps).2 ∧
        (chooseSepGo text last seps).2.length < seps.length) := by
  intro seps
  induction seps with
  | nil => intro h; exact absurd h (List.not_mem_nil [])
  | cons s rest ih =>
    intro hmem
    simp only [chooseSepGo]
    by_cases hse : s.isEmpty
    · rw [if_pos hse]
      exact Or.inl rfl
    · rw [if_neg hse]
      have hsne : s ≠ [] := by
        intro h; subst h; simp at hse
      have hrest : [] ∈ rest := by
        rcases List.mem_cons.mp hmem with h | h
        · exact absurd h.symm hsne
        · exact h
      by_cases hcs : containsSub s text
      · rw [if_pos hcs]
        exact Or.inr ⟨hrest, by simp⟩
      · rw [if_neg hcs]
        rcases ih hrest with h | ⟨ha, hb⟩
        · exact Or.inl h
        · exact Or.inr ⟨ha, Nat.lt_trans hb (by simp)⟩

theorem splitTextWithSep_nil_len (text : List Char) :
    ∀ s ∈ splitTextWithSep [] text, s.length = 1 := by
  intro s hs
  simp only [splitTextWithSep, List.isEmpty_nil, if_pos] at hs
  have := (List.mem_filter.mp hs).1
  rcases List.mem_map.mp this with ⟨c, _, hc⟩
  subst hc
  rfl

theorem splitTextRec_bound (C O : Nat) (hC : 2 ≤ C) :
    ∀ (fuel : Nat) (seps : List (List Char)) (text : List Char),
      [] ∈ seps → seps.length ≤ fuel →
      ∀ c ∈ splitTextRec C O fuel seps text, c.length ≤ C := by
  intro fuel
  induction fuel with
  | zero =>
    intro seps text hmem hlen
    have hnil : seps = [] := List.length_eq_zero.mp (Nat.le_zero.mp hlen)
    subst hnil
    exact absurd hmem (List.not_mem_nil [])
  | succ fuel ih =>
    intro seps text hmem hlen c hc
    simp only [splitTextRec, chooseSep] at hc
    rcases chooseSepGo_spec text (seps.getLastD []) seps hmem with heq | ⟨hm2, hl2⟩
    · rw [heq] at hc
      simp only [List.isEmpty_nil, if_pos] at hc
      refine processSplits_bound C O _ _ ?_ c hc
      intro s hs
      exact Or.inl (by rw [splitTextWithSep_nil_len text s hs]; omega)
    · cases h2 : (chooseSepGo text (seps.getLastD []) seps).2 with
      | nil =>
        rw [h2] at hm2
        exact absurd hm2 (List.not_mem_nil [])
      | cons a as =>
        rw [h2] at hc hm2 hl2
        simp only [List.isEmpty_cons, Bool.false_eq_true, if_false] at hc
        refine processSplits_bound C O _ _ ?_ c hc
        intro s _
        refine Or.inr ?_
        intro c' hc'
        refine ih (a :: as) s hm2 ?_ c' hc'
        simp only [List.length_cons] at hl2 ⊢
        omega

theorem splitText_bound (C O : Nat) (hC : 2 ≤ C) (text : List Char) :
    ∀ c ∈ splitText C O text, c.length ≤ C := by
  intro c hc
  simp only [splitText] at hc
  refine splitTextRec_bound C O hC defaultSeparators.length defaultSeparators text
    ?_ (Nat.le_refl _) c hc
  simp [defaultSeparators]

/-! ## Claim C8 — chunker invariants -/

set_option maxRecDepth 10000 in
/-- C8 (corrected, counterexample): splitting the single document
"600 `a`s, one space, 600 `b`s" with `ChatIngestor._split`
(`chunk_size=1000`, `chunk_overlap=200`) yields two consecutive chunks
from the same document — `a`^600 and `b`^600 — that share no overlap
region of 200 units (their overlap is in fact empty), refuting the claim
that consecutive chunks always overlap by exactly 200 units away from
document boundaries. -/
theorem c8_counterexample :
    ingestorSplit [docAB] =
      [{ page_content := List.replicate 600 'a' },
       { page_content := List.replicate 600 'b' }] ∧
    ¬ hasOverlapRegion 200 (List.replicate 600 'a') (List.replicate 600 'b') := by
  constructor
  · decide
  · decide

/-- C8 (amended): every chunk produced by `ChatIngestor._split`
(`RecursiveCharacterTextSplitter` with `chunk_size=1000`,
`chunk_overlap=200`) has length at most 1000; no exact-overlap guarantee
holds between consecutive chunks (the shared region can be smaller than
200 characters, including zero — see the counterexample). -/
theorem c8_theorem : ∀ (docs : List PDoc), ∀ c ∈ ingestorSplit docs,
    c.page_content.length ≤ 1000 := by
  intro docs
  induction docs with
  | nil => intro c hc; simp [ingestorSplit] at hc
  | cons d ds ih =>
    intro c hc
    simp only [ingestorSplit] at hc
    rcases List.mem_append.mp hc with hm | hm
    · rcases List.mem_map.mp hm with ⟨chunk, hchunk, hceq⟩
      subst hceq
      exact splitText_bound 1000 200 (by omega) d.page_content chunk hchunk
    · exact ih c hm

/-- Witness for C8: a concrete document whose single chunk satisfies the
bound, obtained by applying `c8_theorem`. -/
theorem c8_witness :
    ({ page_content := "hi".data } : PDoc) ∈ ingestorSplit [{ page_content := "hi".data }] ∧
    ({ page_content := "hi".data } : PDoc).page_content.length ≤ 1000 :=
  ⟨by decide, c8_theorem [{ page_content := "hi".data }] { page_content := "hi".data } (by decide)⟩

/-! ## Claims C1, C2, C7 — the conversational chain -/

/-- `formatDocs` of an empty retrieval is the empty context string. -/
theorem formatDocs_nil : formatDocs [] = "" := rfl

/-- C1 (corrected, counterexample): with a retriever that returns zero
chunks the chain still invokes the language model's answer stage and
returns its output (`"answer from llm"` here), not a fixed
"no relevant information found" answer; the same holds through
`ConversationalRAG.invoke`. -/
theorem c1_counterexample :
    envEmptyRet.retrieverSearch "standalone question" = .ok [] ∧
    chainRun envEmptyRet ⟨"any question", []⟩ = .ok "answer from llm" ∧
    invoke { session_id := "s", chain := some envEmptyRet } "any question" (some []) =
      .ok "answer from llm" ∧
    "answer from llm" ≠ "no relevant information found" := by
  refine ⟨rfl, rfl, rfl, by decide⟩

/-- C1 (amended): when the rewrite stage succeeds and retrieval returns
zero chunks, the chain does not short-circuit: it passes the empty context
string to the answer stage and returns whatever the language model
answers. -/
theorem c1_theorem (env : RAGEnv) (p : RAGPayload) (r : String)
    (h1 : env.contextualizeLLM p.input p.chat_history = .ok r)
    (h2 : env.retrieverSearch r = .ok []) :
    chainRun env p = env.qaLLM "" p.input p.chat_history := by
  simp only [chainRun, retrieveDocs, questionRewriter, h1, h2, formatDocs_nil]

/-- Witness for C1: the amended statement applied to the concrete
`envEmptyRet` environment. -/
theorem c1_witness :
    envEmptyRet.contextualizeLLM "q" [] = .ok "standalone question" ∧
    envEmptyRet.retrieverSearch "standalone question" = .ok [] ∧
    chainRun envEmptyRet ⟨"q", []⟩ = envEmptyRet.qaLLM "" "q" [] :=
  ⟨rfl, rfl, c1_theorem envEmptyRet ⟨"q", []⟩ "standalone question" rfl rfl⟩

/-- C2 (confirmed): the rewrite stage receives the original user input
together with the chat history; when rewrite and retrieval succeed, the
answer stage receives the retrieval context together with the *original*
input (not the rewritten query `r`) and the chat history; the rewritten
query only drives retrieval. -/
theorem c2_theorem (env : RAGEnv) (p : RAGPayload) :
    questionRewriter env p = env.contextualizeLLM p.input p.chat_history ∧
    (∀ r ds, env.contextualizeLLM p.input p.chat_history = .ok r →
      env.retrieverSearch r = .ok ds →
      chainRun env p = env.qaLLM (formatDocs ds) p.input p.chat_history) := by
  refine ⟨rfl, ?_⟩
  intro r ds h1 h2
  simp only [chainRun, retrieveDocs, questionRewriter, h1, h2]

/-- Witness for C2 at the concrete `envOk` environment. -/
theorem c2_witness :
    chainRun envOk ⟨"q", [.human "earlier"]⟩ =
      envOk.qaLLM (formatDocs [⟨"chunk one"⟩, ⟨"chunk two"⟩]) "q" [.human "earlier"] :=
  (c2_theorem envOk ⟨"q", [.human "earlier"]⟩).2 "standalone question"
    [⟨"chunk one"⟩, ⟨"chunk two"⟩] rfl rfl

/-- C7 (confirmed): when the chain is built and its generated answer is
falsy (the empty string — the chain ends in `StrOutputParser`, so `None`
cannot occur), `ConversationalRAG.invoke` returns the fixed sentinel
`"no answer generated."` as a success value, not an error; a non-empty
answer is returned unchanged. -/
theorem c7_theorem (env : RAGEnv) (sid user_input : String)
    (hist : Option (List LCMsg)) :
    (chainRun env ⟨user_input, orEmptyList hist⟩ = .ok "" →
      invoke { session_id := sid, chain := some env } user_input hist =
        .ok "no answer generated.") ∧
    (∀ a, chainRun env ⟨user_input, orEmptyList hist⟩ = .ok a → a ≠ "" →
      invoke { session_id := sid, chain := some env } user_input hist = .ok a) := by
  constructor
  · intro h
    simp only [invoke, h, if_pos]
  · intro a h ha
    simp only [invoke, h]
    rw [if_neg ha]

/-- Witness for C7: a chain that answers the empty string yields the
sentinel; `envOk`'s non-empty answer is passed through. -/
theorem c7_witness :
    invoke { session_id := "s", chain := some envEmptyAns } "q" none =
      .ok "no answer generated." ∧
    invoke { session_id := "s", chain := some envOk } "q" none = .ok "final answer" :=
  ⟨(c7_theorem envEmptyAns "s" "q" none).1 rfl,
   (c7_theorem envOk "s" "q" none).2 "final answer" rfl (by decide)⟩

/-! ## Helper lemmas for the interface layer -/

theorem lookupAssoc_updateAssoc_self {α : Type} (l : List (String × α)) (k : String) (v : α) :
    lookupAssoc (updateAssoc l k v) k = some v := by
  induction l with
  | nil => simp [updateAssoc, lookupAssoc]
  | cons p rest ih =>
    obtain ⟨k', v'⟩ := p
    simp only [updateAssoc]
    by_cases h : k' = k
    · rw [if_pos h]
      simp [lookupAssoc]
    · rw [if_neg h]
      simp only [lookupAssoc, if_neg h]
      exact ih

theorem save_uploaded_files_err (ci : ChatIngestor) (files : List (String × List Nat))
    (name : String) (data : List Nat) (hext : strLower (pySuffix name) ≠ ".pdf") :
    save_uploaded_files ci files ⟨name, data⟩ =
      .error (.valueError "Only PDF files are supported.") := by
  simp only [save_uploaded_files]
  rw [if_pos hext]

theorem save_uploaded_files_ok (ci : ChatIngestor) (files : List (String × List Nat))
    (name : String) (data : List Nat) (hext : strLower (pySuffix name) = ".pdf") :
    save_uploaded_files ci files ⟨name, data⟩ =
      .ok ({ ci with file_path := "data/pdf/" ++ pyName name },
        updateAssoc files ("data/pdf/" ++ pyName name) data,
        "data/pdf/" ++ pyName name) := by
  simp only [save_uploaded_files]
  rw [if_neg (fun h => h hext)]

theorem load_retriever_fail (stores : List String) (loadEnv : String → RAGEnv)
    (rag : RAGState) (p : String) (h : stores.contains p = false) :
    load_retriever_from_faiss stores loadEnv rag p =
      .error (.fileNotFoundError ("FAISS index not found at " ++ p)) := by
  simp only [load_retriever_from_faiss]
  rw [if_pos (show ¬ stores.contains p = true by rw [h]; simp)]

/-! ## Claim C4 — non-PDF uploads rejected before any write -/

/-- C4 (confirmed): an uploaded file whose name's extension is not `.pdf`
after case-insensitive comparison is rejected with the UnsupportedFormat
error (`ValueError("Only PDF files are supported.")`, surfaced by the
endpoint) and the state — saved files, vector stores, sessions — is
exactly the state before the upload, so nothing was written; a name whose
lower-cased extension is `.pdf` passes the check and the bytes are
written. -/
theorem c4_theorem :
    (∀ (env : IngestEnv) (sid : String) (st : SysState) (name : String) (data : List Nat),
      strLower (pySuffix name) ≠ ".pdf" →
      chat_build_index env sid st ⟨name, data⟩ =
        (st, .err 500 "Indexing failed: Only PDF files are supported.")) ∧
    (∀ (ci : ChatIngestor) (files : List (String × List Nat)) (name : String) (data : List Nat),
      strLower (pySuffix name) = ".pdf" →
      save_uploaded_files ci files ⟨name, data⟩ =
        .ok ({ ci with file_path := "data/pdf/" ++ pyName name },
          updateAssoc files ("data/pdf/" ++ pyName name) data,
          "data/pdf/" ++ pyName name)) := by
  constructor
  · intro env sid st name data hext
    simp only [chat_build_index, save_uploaded_files_err _ _ _ _ hext]
    rfl
  · intro ci files name data hext
    exact save_uploaded_files_ok ci files name data hext

/-- Witness for C4: `notes.txt` is rejected with the state untouched,
`Report.PDF` (upper case) is accepted and saved. -/
theorem c4_witness :
    strLower (pySuffix "notes.txt") ≠ ".pdf" ∧
    chat_build_index ienvOk "sid0" stEmpty ⟨"notes.txt", [37]⟩ =
      (stEmpty, .err 500 "Indexing failed: Only PDF files are supported.") ∧
    strLower (pySuffix "Report.PDF") = ".pdf" ∧
    save_uploaded_files ⟨".", "sid0"⟩ [] ⟨"Report.PDF", [1, 2]⟩ =
      .ok (⟨"data/pdf/Report.PDF", "sid0"⟩, [("data/pdf/Report.PDF", [1, 2])],
        "data/pdf/Report.PDF") :=
  ⟨by decide,
   (c4_theorem).1 ienvOk "sid0" stEmpty "notes.txt" [37] (by decide),
   by decide,
   (c4_theorem).2 ⟨".", "sid0"⟩ [] "Report.PDF" [1, 2] (by decide)⟩

/-! ## Claim C5 — empty saved file aborts before any index work -/

/-- C5 (confirmed): when a `.pdf` upload with zero bytes is ingested, the
saved file is empty, `built_retriver` returns `None` from its
zero-size branch and the endpoint fails (status 500,
"Retriever could not be built", the code's surfacing of the EmptyFile
condition); no vector store is persisted and no session is registered.
The outcome is identical for every loader/embedder oracle, so the PDF
loader and index builder are never invoked. -/
theorem c5_theorem (env env' : IngestEnv) (sid : String) (st : SysState) (name : String)
    (hext : strLower (pySuffix name) = ".pdf") :
    (chat_build_index env sid st ⟨name, []⟩).2 =
      .err 500 "Indexing failed: 500: Retriever could not be built." ∧
    (chat_build_index env sid st ⟨name, []⟩).1.stores = st.stores ∧
    (chat_build_index env sid st ⟨name, []⟩).1.sessions = st.sessions ∧
    chat_build_index env sid st ⟨name, []⟩ = chat_build_index env' sid st ⟨name, []⟩ := by
  have hbuilt : ∀ e : IngestEnv,
      built_retriver e { file_path := "data/pdf/" ++ pyName name, session_id := sid }
        (updateAssoc st.files ("data/pdf/" ++ pyName name) []) st.stores =
        .ok (none, st.stores) := by
    intro e
    simp only [built_retriver]
    rw [lookupAssoc_updateAssoc_self]
    simp
  refine ⟨?_, ?_, ?_, ?_⟩
  · simp only [chat_build_index, save_uploaded_files_ok _ _ _ _ hext, hbuilt env]
  · simp only [chat_build_index, save_uploaded_files_ok _ _ _ _ hext, hbuilt env]
  · simp only [chat_build_index, save_uploaded_files_ok _ _ _ _ hext, hbuilt env]
  · simp only [chat_build_index, save_uploaded_files_ok _ _ _ _ hext, hbuilt env, hbuilt env']

/-- Witness for C5: a zero-byte `empty.pdf` against the always-raising
oracle `ienvBoom` — whose loader is provably never reached. -/
theorem c5_witness :
    strLower (pySuffix "empty.pdf") = ".pdf" ∧
    (chat_build_index ienvBoom "sid1" stEmpty ⟨"empty.pdf", []⟩).2 =
      .err 500 "Indexing failed: 500: Retriever could not be built." ∧
    (chat_build_index ienvBoom "sid1" stEmpty ⟨"empty.pdf", []⟩).1.stores = stEmpty.stores ∧
    (chat_build_index ienvBoom "sid1" stEmpty ⟨"empty.pdf", []⟩).1.sessions = stEmpty.sessions ∧
    chat_build_index ienvBoom "sid1" stEmpty ⟨"empty.pdf", []⟩ =
      chat_build_index ienvOk "sid1" stEmpty ⟨"empty.pdf", []⟩ :=
  ⟨by decide,
   (c5_theorem ienvBoom ienvOk "sid1" stEmpty "empty.pdf" (by decide)).1,
   (c5_theorem ienvBoom ienvOk "sid1" stEmpty "empty.pdf" (by decide)).2.1,
   (c5_theorem ienvBoom ienvOk "sid1" stEmpty "empty.pdf" (by decide)).2.2.1,
   (c5_theorem ienvBoom ienvOk "sid1" stEmpty "empty.pdf" (by decide)).2.2.2⟩

/-! ## Claim C3 — HTTP status classes -/

/-- C3 (corrected, counterexample): the UnsupportedFormat failure — a
client error per the claim — is surfaced by the upload endpoint with
status 500, which is not in the 4xx class. -/
theorem c3_counterexample :
    (chat_build_index ienvOk "sid0" stEmpty ⟨"notes.txt", [37]⟩).2 =
      .err 500 "Indexing failed: Only PDF files are supported." ∧
    ¬ (400 ≤ 500 ∧ 500 < 500) :=
  ⟨rfl, by omega⟩

/-- C3 (amended): only the query endpoint's pre-handler validation
(empty or unknown session id, empty query) is mapped to a 4xx status
(400); every failure raised inside either handler — UnsupportedFormat,
EmptyFile, IndexNotFound, and internal faults alike — is mapped to
status 500.  Upload failures always carry status 500, and a query
failure carries 400 exactly when the request was invalid at the
boundary. -/
theorem c3_theorem :
    (∀ (env : IngestEnv) (sid : String) (st : SysState) (f : UploadedFile)
      (s : Nat) (d : String),
      (chat_build_index env sid st f).2 = .err s d → s = 500) ∧
    (∀ (loadEnv : String → RAGEnv) (st : SysState) (sid q : String)
      (s : Nat) (d : String),
      (chat_query loadEnv st sid q).2 = .err s d →
      ((s = 400 ∧ (sid = "" ∨ lookupAssoc st.sessions sid = none ∨ q = "")) ∨
       (s = 500 ∧ sid ≠ "" ∧ lookupAssoc st.sessions sid ≠ none ∧ q ≠ ""))) := by
  constructor
  · intro env sid st f s d h
    simp only [chat_build_index] at h
    split at h
    · simp at h
      omega
    · split at h
      · simp at h
        omega
      · simp at h
        omega
      · simp at h
  · intro loadEnv st sid q s d h
    simp only [chat_query] at h
    split at h
    · rename_i hcond
      simp at h
      rcases hcond with hc | hc
      · exact Or.inl ⟨by omega, Or.inl hc⟩
      · exact Or.inl ⟨by omega, Or.inr (Or.inl hc)⟩
    · rename_i hcond
      push_neg at hcond
      split at h
      · rename_i hq
        simp at h
        exact Or.inl ⟨by omega, Or.inr (Or.inr hq)⟩
      · rename_i hq
        split at h
        · simp at h
          exact Or.inr ⟨by omega, hcond.1, hcond.2, hq⟩
        · split at h
          · simp at h
            exact Or.inr ⟨by omega, hcond.1, hcond.2, hq⟩
          · simp at h

/-- Witness for C3: a non-PDF upload error carries status 500; an
unknown-session query error carries status 400 with the invalid-request
condition. -/
theorem c3_witness :
    (chat_build_index ienvOk "sid0" stEmpty ⟨"notes.txt", [37]⟩).2 =
      .err 500 "Indexing failed: Only PDF files are supported." ∧
    (500 : Nat) = 500 ∧
    ((400 = 400 ∧ ("s9" = "" ∨ lookupAssoc stEmpty.sessions "s9" = none ∨ "hi" = "")) ∨
     (400 = 500 ∧ "s9" ≠ "" ∧ lookupAssoc stEmpty.sessions "s9" ≠ none ∧ "hi" ≠ "")) :=
  ⟨rfl,
   (c3_theorem).1 ienvOk "sid0" stEmpty ⟨"notes.txt", [37]⟩ 500
     "Indexing failed: Only PDF files are supported." rfl,
   (c3_theorem).2 loadEnvOk stEmpty "s9" "hi" 400
     "Invalid or expired session_id. Re-upload documents." rfl⟩

/-! ## Claim C6 — IndexNotFound for missing index paths -/

/-- C6 (corrected, counterexample): a fabricated session id is rejected
by the query endpoint with the 400 InvalidRequest error ("Invalid or
expired session_id") even when an index directory for it exists on disk;
the IndexNotFound error is not the one produced for a fabricated id. -/
theorem c6_counterexample :
    (chat_query loadEnvOk stFakeIdx "session_fake" "hello").2 =
      .err 400 "Invalid or expired session_id. Re-upload documents." ∧
    (chat_query loadEnvOk stFakeIdx "session_fake" "hello").2 ≠
      .err 500 "Chat failed: FAISS index not found at data/vectorstores/session_fake" :=
  ⟨rfl, by decide⟩

/-- C6 (amended): `load_retriever_from_faiss` on a path that does not
exist on disk fails with the IndexNotFound error (`FileNotFoundError`),
deterministically; at the interface this is the error surfaced (as a 500)
for a *stale* session id — one that is registered but whose index
directory is missing — while a *fabricated* (unregistered) session id is
rejected earlier with the 400 InvalidRequest error, before any load is
attempted. -/
theorem c6_theorem :
    (∀ (stores : List String) (loadEnv : String → RAGEnv) (rag : RAGState) (p : String),
      stores.contains p = false →
      load_retriever_from_faiss stores loadEnv rag p =
        .error (.fileNotFoundError ("FAISS index not found at " ++ p))) ∧
    (∀ (loadEnv : String → RAGEnv) (st : SysState) (sid q : String),
      sid ≠ "" → lookupAssoc st.sessions sid ≠ none → q ≠ "" →
      st.stores.contains ("data/vectorstores/" ++ sid) = false →
      (chat_query loadEnv st sid q).2 =
        .err 500 ("Chat failed: " ++
          ("FAISS index not found at " ++ ("data/vectorstores/" ++ sid)))) ∧
    (∀ (loadEnv : String → RAGEnv) (st : SysState) (sid q : String),
      lookupAssoc st.sessions sid = none →
      (chat_query loadEnv st sid q).2 =
        .err 400 "Invalid or expired session_id. Re-upload documents.") := by
  refine ⟨?_, ?_, ?_⟩
  · intro stores loadEnv rag p h
    exact load_retriever_fail stores loadEnv rag p h
  · intro loadEnv st sid q hsid hreg hq hmiss
    simp only [chat_query]
    rw [if_neg (by push_neg; exact ⟨hsid, hreg⟩)]
    rw [if_neg hq]
    rw [load_retriever_fail st.stores loadEnv _ _ hmiss]
    rfl
  · intro loadEnv st sid q hnone
    simp only [chat_query]
    rw [if_pos (Or.inr hnone)]

/-- Witness for C6: a missing path fails the load; a stale registered
session surfaces the IndexNotFound message as a 500; an unregistered id
gets the 400 invalid-session error. -/
theorem c6_witness :
    ([] : List String).contains "data/vectorstores/sX" = false ∧
    load_retriever_from_faiss [] loadEnvOk { session_id := "sX" } "data/vectorstores/sX" =
      .error (.fileNotFoundError ("FAISS index not found at " ++ "data/vectorstores/sX")) ∧
    (chat_query loadEnvOk stStale "s2" "hi").2 =
      .err 500 ("Chat failed: " ++
        ("FAISS index not found at " ++ ("data/vectorstores/" ++ "s2"))) ∧
    (chat_query loadEnvOk stEmpty "nope" "hi").2 =
      .err 400 "Invalid or expired session_id. Re-upload documents." :=
  ⟨rfl,
   (c6_theorem).1 [] loadEnvOk { session_id := "sX" } "data/vectorstores/sX" rfl,
   (c6_theorem).2.1 loadEnvOk stStale "s2" "hi" (by decide) (by decide) (by decide) rfl,
   (c6_theorem).2.2 loadEnvOk stEmpty "nope" "hi" rfl⟩

/-! ## Claim C9 — sessions registered only after full success -/

/-- C9 (confirmed): the upload endpoint registers the session id (an
empty history entry in `SESSIONS`) only on the success path, after save,
load, chunk, embed, index build and persist have all completed: whenever
the endpoint reports an error the session map is exactly what it was
before, and whenever it reports success the id is registered; a query
with an unregistered (fabricated) session id is answered with the 400
invalid-session error rather than crashing. -/
theorem c9_theorem :
    (∀ (env : IngestEnv) (sid : String) (st : SysState) (f : UploadedFile),
      (∀ s d, (chat_build_index env sid st f).2 = .err s d →
        (chat_build_index env sid st f).1.sessions = st.sessions) ∧
      (∀ p, (chat_build_index env sid st f).2 = .ok sid p →
        lookupAssoc (chat_build_index env sid st f).1.sessions sid = some [])) ∧
    (∀ (loadEnv : String → RAGEnv) (st : SysState) (sid q : String),
      lookupAssoc st.sessions sid = none →
      (chat_query loadEnv st sid q).2 =
        .err 400 "Invalid or expired session_id. Re-upload documents.") := by
  constructor
  · intro env sid st f
    rcases hsave : save_uploaded_files { file_path := ".", session_id := sid } st.files f
      with e | ⟨ci1, files1, saved⟩
    · constructor
      · intro s d _
        simp only [chat_build_index, hsave]
      · intro p h
        simp only [chat_build_index, hsave] at h
        simp at h
    · rcases hbuilt : built_retriver env ci1 files1 st.stores with e | ⟨ret, stores1⟩
      · constructor
        · intro s d _
          simp only [chat_build_index, hsave, hbuilt]
        · intro p h
          simp only [chat_build_index, hsave, hbuilt] at h
          simp at h
      · cases ret with
        | none =>
          constructor
          · intro s d _
            simp only [chat_build_index, hsave, hbuilt]
          · intro p h
            simp only [chat_build_index, hsave, hbuilt] at h
            simp at h
        | some r =>
          constructor
          · intro s d h
            simp only [chat_build_index, hsave, hbuilt] at h
            simp at h
          · intro p _
            simp only [chat_build_index, hsave, hbuilt]
            exact lookupAssoc_updateAssoc_self st.sessions sid []
  · intro loadEnv st sid q hnone
    simp only [chat_query]
    rw [if_pos (Or.inr hnone)]

/-- Witness for C9: a failing loader leaves the session map empty; the
succeeding oracle registers `sid2`; querying an unregistered id gives the
400 error. -/
theorem c9_witness :
    ((chat_build_index ienvBoom "sid2" stEmpty ⟨"doc.pdf", [1]⟩).2 =
      .err 500 "Indexing failed: loader reached" ∧
     (chat_build_index ienvBoom "sid2" stEmpty ⟨"doc.pdf", [1]⟩).1.sessions =
       stEmpty.sessions) ∧
    ((chat_build_index ienvOk "sid2" stEmpty ⟨"doc.pdf", [1]⟩).2 =
      .ok "sid2" "data/pdf/doc.pdf" ∧
     lookupAssoc (chat_build_index ienvOk "sid2" stEmpty ⟨"doc.pdf", [1]⟩).1.sessions
       "sid2" = some []) ∧
    (chat_query loadEnvOk stEmpty "ghost" "hi").2 =
      .err 400 "Invalid or expired session_id. Re-upload documents." :=
  ⟨⟨rfl,
    ((c9_theorem).1 ienvBoom "sid2" stEmpty ⟨"doc.pdf", [1]⟩).1 500
      "Indexing failed: loader reached" rfl⟩,
   ⟨rfl,
    ((c9_theorem).1 ienvOk "sid2" stEmpty ⟨"doc.pdf", [1]⟩).2 "data/pdf/doc.pdf" rfl⟩,
   (c9_theorem).2 loadEnvOk stEmpty "ghost" "hi" rfl⟩

/-! ## Claim C10 — transcript updates -/

/-- C10 (confirmed): when the query endpoint reports any error, the whole
process state — in particular the session's stored transcript — is
unchanged; when it reports success with answer `a`, exactly two turns are
appended to the session's transcript, first `("user", query)` and then
`("assistant", a)`. -/
theorem c10_theorem (loadEnv : String → RAGEnv) (st : SysState) (sid q : String) :
    (∀ s d, (chat_query loadEnv st sid q).2 = .err s d →
      (chat_query loadEnv st sid q).1 = st) ∧
    (∀ a, (chat_query loadEnv st sid q).2 = .ok a →
      lookupD (chat_query loadEnv st sid q).1.sessions sid [] =
        lookupD st.sessions sid [] ++ [⟨"user", q⟩, ⟨"assistant", a⟩]) := by
  by_cases h1 : sid = "" ∨ lookupAssoc st.sessions sid = none
  · constructor
    · intro s d _
      simp only [chat_query, if_pos h1]
    · intro a h
      simp only [chat_query, if_pos h1] at h
      simp at h
  · by_cases h2 : q = ""
    · constructor
      · intro s d _
        simp only [chat_query, if_neg h1, if_pos h2]
      · intro a h
        simp only [chat_query, if_neg h1, if_pos h2] at h
        simp at h
    · rcases hload : load_retriever_from_faiss st.stores loadEnv { session_id := sid }
        ("data/vectorstores/" ++ sid) with e | rag1
      · constructor
        · intro s d _
          simp only [chat_query, if_neg h1, if_neg h2, hload]
        · intro a h
          simp only [chat_query, if_neg h1, if_neg h2, hload] at h
          simp at h
      · rcases hinv : invoke rag1 q (some (historyToLC (lookupD st.sessions sid [])))
          with e | answer
        · constructor
          · intro s d _
            simp only [chat_query, if_neg h1, if_neg h2, hload, hinv]
          · intro a h
            simp only [chat_query, if_neg h1, if_neg h2, hload, hinv] at h
            simp at h
        · constructor
          · intro s d h
            simp only [chat_query, if_neg h1, if_neg h2, hload, hinv] at h
            simp at h
          · intro a h
            simp only [chat_query, if_neg h1, if_neg h2, hload, hinv] at h ⊢
            have ha : answer = a := by
              simpa using h
            subst ha
            simp only [lookupD, lookupAssoc_updateAssoc_self, Option.getD]

/-- Witness for C10: an unknown-session error leaves the state unchanged;
a successful query against the registered session `s1` appends the two
turns in order. -/
theorem c10_witness :
    (chat_query loadEnvOk stEmpty "zzz" "hi").2 =
      .err 400 "Invalid or expired session_id. Re-upload documents." ∧
    (chat_query loadEnvOk stEmpty "zzz" "hi").1 = stEmpty ∧
    (chat_query loadEnvOk stReg "s1" "hi").2 = .ok "final answer" ∧
    lookupD (chat_query loadEnvOk stReg "s1" "hi").1.sessions "s1" [] =
      lookupD stReg.sessions "s1" [] ++ [⟨"user", "hi"⟩, ⟨"assistant", "final answer"⟩] :=
  ⟨rfl,
   (c10_theorem loadEnvOk stEmpty "zzz" "hi").1 400
     "Invalid or expired session_id. Re-upload documents." rfl,
   rfl,
   (c10_theorem loadEnvOk stReg "s1" "hi").2 "final answer" rfl⟩
